import Mathlib

set_option maxRecDepth 100000

/-!
Shallow embedding of the background-compatible workflow/config loader
(second document of `src/screens/signin/index.tsx`): the embedded
workflow table, the default client config template,
`generateRandomPasscode`, `generatePasscodeAndConfig`, `loadWorkflow`,
`getFallbackWorkflow` and `loadConfig`.

Modelling conventions.  JavaScript records (`Record<string, T>`) are
association lists; `alset` has JS property-assignment semantics
(overwrite in place, else append).  A possibly-`undefined` string
value is an `Option String`; JS truthiness of such a value is
`jsTruthy` (missing, `undefined` and the empty string are falsy).
The host environment (resource fetch, JSON/YAML parsing, extension
storage) is an explicit environment record giving the outcome of each
external call for the call under consideration; a thrown JS exception
is `Except.error`.  The module-level binding `DEFAULT_CLIENT_CONFIG`
is threaded through the operations as an explicit template argument
and each operation also returns the template state after the call:
the source copies the template with a shallow object spread
(`{ ...DEFAULT_CLIENT_CONFIG }`), so writes performed through the
copy's nested objects (`secrets`, `agents`) are writes to the shared
template, while assignments of top-level keys land on the copy only.
-/

/-- Lookup in a JS record modelled as an association list
(`record[key]`, yielding `undefined` when the key is missing). -/
def alget {α : Type} : List (String × α) → String → Option α
  | [], _ => none
  | entry :: rest, key => if entry.1 = key then some entry.2 else alget rest key

/-- JS property assignment `record[key] = v`: overwrites the existing
entry in place, otherwise appends a new one. -/
def alset {α : Type} : List (String × α) → String → α → List (String × α)
  | [], key, v => [(key, v)]
  | entry :: rest, key, v =>
    if entry.1 = key then (entry.1, v) :: rest else entry :: alset rest key v

/-- JS truthiness of a string-or-`undefined` value: a missing value,
`undefined` and the empty string are falsy, every other string truthy. -/
def jsTruthy : Option String → Bool
  | none => false
  | some s => decide (s ≠ "")

/-- Decidable equality of call outcomes (`Except` carries either a
thrown error or a returned value). -/
instance {ε α : Type} [DecidableEq ε] [DecidableEq α] : DecidableEq (Except ε α)
  | Except.error e, Except.error f =>
    if h : e = f then Decidable.isTrue (congrArg Except.error h)
    else Decidable.isFalse (fun hh => h (Except.error.inj hh))
  | Except.error _, Except.ok _ => Decidable.isFalse (fun hh => Except.noConfusion hh)
  | Except.ok _, Except.error _ => Decidable.isFalse (fun hh => Except.noConfusion hh)
  | Except.ok v, Except.ok w =>
    if h : v = w then Decidable.isTrue (congrArg Except.ok h)
    else Decidable.isFalse (fun hh => h (Except.ok.inj hh))

/-- One step of a workflow (`id`, `type` plus type-specific fields). -/
structure WorkflowStep where
  id : String
  type : String
  agent_name : Option String := none
  aid : Option String := none
  description : String
  deriving DecidableEq, Repr

/-- The `workflow:` body of a workflow document: a record of steps. -/
structure WorkflowSteps where
  steps : List (String × WorkflowStep)
  deriving DecidableEq, Repr

/-- A parsed workflow document (`{ workflow: { steps: ... } }`). -/
structure WorkflowDefinition where
  workflow : WorkflowSteps
  deriving DecidableEq, Repr

/-- Entry of the `identifiers` record of a config. -/
structure IdentifierEntry where
  agent : String
  name : String
  deriving DecidableEq, Repr

/-- Entry of the `agents` record of a config (connection descriptor). -/
structure AgentEntry where
  secret : String
  url : Option String := none
  boot_url : Option String := none
  passcode : Option String := none
  bran : Option String := none
  deriving DecidableEq, Repr

/-- Entry of the `users` array of a config. -/
structure UserEntry where
  type : String
  «alias» : String
  identifiers : List String
  deriving DecidableEq, Repr

/-- The `ExtendedConfig` shape of the source.  `credentials` is an open
record whose values this module never inspects; its values are kept as
plain strings.  The optional top-level `agentUrl`/`bootUrl`/`bran`
keys are `none` when absent. -/
structure ExtendedConfig where
  secrets : List (String × String)
  agents : List (String × AgentEntry)
  identifiers : List (String × IdentifierEntry)
  users : List UserEntry
  credentials : List (String × String)
  agentUrl : Option String := none
  bootUrl : Option String := none
  bran : Option String := none
  deriving DecidableEq, Repr

/-- The caller-supplied runtime overlay (`runtimeValues`); every field
may be absent. -/
structure RuntimeValues where
  agentUrl : Option String := none
  bootUrl : Option String := none
  passcode : Option String := none
  bran : Option String := none
  aidName : Option String := none
  deriving DecidableEq, Repr

/-- Text of the embedded `create-client` / `create-client-workflow`
YAML documents (the source repeats the identical literal twice). -/
def createClientYaml : String :=
  "\nworkflow:\n  steps:\n    gleif_client:\n      id: \x27gleif_client\x27\n      type: \x27create_client\x27\n      agent_name: \x27gleif-agent-1\x27\n      description: \x27Creating client for gleif agent\x27\n  "

/-- Text of the embedded `create-aid-workflow` YAML document. -/
def createAidYaml : String :=
  "\nworkflow:\n  steps:\n    gleif_aid:\n      id: \x27gleif_aid\x27\n      type: \x27create_aid\x27\n      aid: \x27gleif-aid-1\x27\n      description: \x27Creating AID for gleif-aid-1\x27\n  "

/-- The embedded workflow table `EMBEDDED_WORKFLOWS`. -/
def EMBEDDED_WORKFLOWS : List (String × String) :=
  [("create-client", createClientYaml),
   ("create-client-workflow", createClientYaml),
   ("create-aid-workflow", createAidYaml)]

/-- The module-level default config template `DEFAULT_CLIENT_CONFIG`. -/
def DEFAULT_CLIENT_CONFIG : ExtendedConfig :=
  { secrets := [("browser_extension", "AUTOGENERATED_AT_RUNTIME")],
    agents := [("browser_extension", { secret := "browser_extension" })],
    identifiers := [("browser-extension-aid",
      { agent := "browser_extension", name := "browser-extension-aid" })],
    users := [{ type := "EXTENSION", «alias» := "extension-user",
                identifiers := ["browser-extension-aid"] }],
    credentials := [] }

/-- The passcode alphabet literal of `generateRandomPasscode`. -/
def characters : String :=
  "ABCDEFGHIJKLMNOPQRSTUVWXYZabcdefghijklmnopqrstuvwxyz0123456789-_"

/-- The characters of the alphabet, for indexed access (`charAt`). -/
def charactersList : List Char := characters.toList

/-- `generateRandomPasscode`: 20 rounds of
`characters.charAt(Math.floor(Math.random() * characters.length))`.
`Math.random()` lies in `[0, 1)`, so each floored draw lies in
`[0, 64)`; the random source is modelled as the sequence `rand` of
those draws. -/
def generateRandomPasscode (rand : Nat → Fin 64) : String :=
  String.mk ((List.range 20).map fun i =>
    charactersList.get ⟨(rand i).val, lt_of_lt_of_eq (rand i).isLt (by decide)⟩)

/-- `generatePasscodeAndConfig`: generates a passcode and builds a
config as `{ ...DEFAULT_CLIENT_CONFIG }` followed by
`config.secrets.browser_extension = passcode`.  The spread copy shares
the nested `secrets` object with the template, so the write also
updates the template; the returned triple is
(passcode, returned config, template state after the call). -/
def generatePasscodeAndConfig (template : ExtendedConfig) (rand : Nat → Fin 64) :
    String × ExtendedConfig × ExtendedConfig :=
  let passcode := generateRandomPasscode rand
  let secrets2 := alset template.secrets "browser_extension" passcode
  (passcode, { template with secrets := secrets2 }, { template with secrets := secrets2 })

/-- The fallback workflow returned by `getFallbackWorkflow` for
`create-client` and `create-client-workflow`. -/
def fallbackClientWorkflow : WorkflowDefinition :=
  { workflow := { steps := [("gleif_client",
      { id := "gleif_client", type := "create_client",
        agent_name := some "gleif-agent-1", aid := none,
        description := "Creating client for gleif agent (FALLBACK)" })] } }

/-- The fallback workflow returned by `getFallbackWorkflow` for
`create-aid-workflow`. -/
def fallbackAidWorkflow : WorkflowDefinition :=
  { workflow := { steps := [("gleif_aid",
      { id := "gleif_aid", type := "create_aid",
        agent_name := none, aid := some "gleif-aid-1",
        description := "Creating AID for gleif-aid-1 (FALLBACK)" })] } }

/-- `getFallbackWorkflow`: hardcoded last-resort definitions selected
by exact name match; unknown names yield `null`. -/
def getFallbackWorkflow (workflowName : String) : Option WorkflowDefinition :=
  match workflowName with
  | "create-client-workflow" => some fallbackClientWorkflow
  | "create-client" => some fallbackClientWorkflow
  | "create-aid-workflow" => some fallbackAidWorkflow
  | _ => none

/-- Environment of one `loadWorkflow` call: outcome of the bundled-file
fetch (`getURL`/`fetch`/`response.ok`/`text`, collapsed), the YAML
parser (`yaml.load`, which throws on malformed input and may return
`null`), and the extension-storage read of `workflow_<name>`. -/
structure WorkflowEnv where
  fetchW : Except String String
  parseYaml : String → Except String (Option WorkflowDefinition)
  storageGet : Except String (Option String)

/-- The storage tier of `loadWorkflow`: its own try/catch around the
storage read and `yaml.load`; `some v` means the source `return`s `v`
from inside the tier, `none` means control falls through to
`getFallbackWorkflow`. -/
def workflowStorageTier (env : WorkflowEnv) : Option (Option WorkflowDefinition) :=
  match env.storageGet with
  | Except.error _ => none
  | Except.ok stored =>
    if jsTruthy stored then
      match env.parseYaml (stored.getD "") with
      | Except.error _ => none
      | Except.ok v => some v
    else none

/-- The bundled-file tier of `loadWorkflow`: fetch the resource, then
`yaml.load` the text; either step may throw. -/
def fetchWorkflowTier (env : WorkflowEnv) : Except String (Option WorkflowDefinition) :=
  match env.fetchW with
  | Except.error e => Except.error e
  | Except.ok yamlText => env.parseYaml yamlText

/-- Body of the outer try of `loadWorkflow`: the bundled-file tier,
whose failure is caught by the inner catch (embedded table, then
storage, then `getFallbackWorkflow`).  A parse error on an embedded
document escapes to the outer catch, as in the source. -/
def loadWorkflowInner (env : WorkflowEnv) (workflowName : String) :
    Except String (Option WorkflowDefinition) :=
  match fetchWorkflowTier env with
  | Except.ok v => Except.ok v
  | Except.error _ =>
    let embeddedWorkflow := alget EMBEDDED_WORKFLOWS workflowName
    if jsTruthy embeddedWorkflow then env.parseYaml (embeddedWorkflow.getD "")
    else
      match workflowStorageTier env with
      | some v => Except.ok v
      | none => Except.ok (getFallbackWorkflow workflowName)

/-- `loadWorkflow`: the outer catch converts any escaped error into
`getFallbackWorkflow` as a last resort. -/
def loadWorkflow (env : WorkflowEnv) (workflowName : String) :
    Except String (Option WorkflowDefinition) :=
  match loadWorkflowInner env workflowName with
  | Except.ok v => Except.ok v
  | Except.error _ => Except.ok (getFallbackWorkflow workflowName)

/-- Environment of one `loadConfig` call: outcome of the bundled-file
fetch, the JSON parser (`JSON.parse`, throwing on malformed input),
and an oracle for an exception thrown while the default-template
branch itself is being processed (`none` = that branch runs to
completion, as it does for ordinary inputs). -/
structure ConfigEnv where
  fetch : Except String String
  parseJson : String → Except String ExtendedConfig
  fallbackError : Option String

/-- Runtime-value overlay of the loaded-file branch of `loadConfig`
(lines 342-374): targets agent key `gleif-agent-1`, mirrors
`agentUrl`/`bootUrl` at top level, sets `bran` only when truthy, and
upserts `identifiers[aidName]` referencing `gleif-agent-1`.  All
mutations here hit the freshly parsed object only. -/
def applyLoadedOverlay (config : ExtendedConfig) (runtimeValues : Option RuntimeValues) :
    ExtendedConfig :=
  match runtimeValues with
  | none => config
  | some rv =>
    let agents2 :=
      match alget config.agents "gleif-agent-1" with
      | some old =>
        let updated : AgentEntry :=
          { old with
            url := rv.agentUrl
            boot_url := rv.bootUrl
            passcode := rv.passcode
            bran := if jsTruthy rv.bran then rv.bran else old.bran }
        alset config.agents "gleif-agent-1" updated
      | none => config.agents
    let identifiers2 :=
      if jsTruthy rv.aidName then
        alset config.identifiers (rv.aidName.getD "")
          { agent := "gleif-agent-1", name := rv.aidName.getD "" }
      else config.identifiers
    { config with
      agents := agents2
      identifiers := identifiers2
      agentUrl := rv.agentUrl
      bootUrl := rv.bootUrl
      bran := if jsTruthy rv.bran then rv.bran else config.bran }

/-- Default-template branch of `loadConfig` (lines 380-425): shallow
copy of the template, conditional passcode substitution into the
shared `secrets`, overlay onto the shared `agents.browser_extension`
entry, top-level mirroring on the copy, and an `identifiers` upsert
(referencing agent key `gleif-agent-1`) assigned as a fresh object to
the copy only.  Returns (returned config, template state after the
call): the `secrets` and `agents` writes go through the shared nested
objects, the top-level and `identifiers` assignments do not. -/
def fallbackBranch (template : ExtendedConfig) (runtimeValues : Option RuntimeValues) :
    ExtendedConfig × ExtendedConfig :=
  match runtimeValues with
  | none => (template, template)
  | some rv =>
    let secrets2 :=
      if jsTruthy rv.passcode then
        alset template.secrets "browser_extension" (rv.passcode.getD "")
      else template.secrets
    let agents2 :=
      match alget template.agents "browser_extension" with
      | some old =>
        let updated : AgentEntry :=
          { old with
            url := rv.agentUrl
            boot_url := rv.bootUrl
            passcode := rv.passcode
            bran := if jsTruthy rv.bran then rv.bran else old.bran }
        alset template.agents "browser_extension" updated
      | none => template.agents
    let identifiers2 :=
      if jsTruthy rv.aidName then
        alset template.identifiers (rv.aidName.getD "")
          { agent := "gleif-agent-1", name := rv.aidName.getD "" }
      else template.identifiers
    ({ secrets := secrets2
       agents := agents2
       identifiers := identifiers2
       users := template.users
       credentials := template.credentials
       agentUrl := rv.agentUrl
       bootUrl := rv.bootUrl
       bran := if jsTruthy rv.bran then rv.bran else template.bran },
     { template with secrets := secrets2, agents := agents2 })

/-- The bundled-file tier of `loadConfig`: fetch the resource, then
`JSON.parse` the text; either step may throw. -/
def fetchConfigTier (env : ConfigEnv) : Except String ExtendedConfig :=
  match env.fetch with
  | Except.error e => Except.error e
  | Except.ok configText => env.parseJson configText

/-- Body of the outer try of `loadConfig`: the bundled-file tier, whose
failure (fetch or parse) is caught by the inner catch running the
default-template branch; an error thrown inside that branch escapes to
the outer catch. -/
def loadConfigInner (template : ExtendedConfig) (env : ConfigEnv)
    (runtimeValues : Option RuntimeValues) :
    Except String (ExtendedConfig × ExtendedConfig) :=
  match fetchConfigTier env with
  | Except.ok config => Except.ok (applyLoadedOverlay config runtimeValues, template)
  | Except.error _ =>
    match env.fallbackError with
    | some e => Except.error e
    | none => Except.ok (fallbackBranch template runtimeValues)

/-- `loadConfig`: the outer catch converts any escaped error into the
`null` result.  Returns (result, template state after the call). -/
def loadConfig (template : ExtendedConfig) (env : ConfigEnv) (configName : String)
    (runtimeValues : Option RuntimeValues) : Option ExtendedConfig × ExtendedConfig :=
  match loadConfigInner template env runtimeValues with
  | Except.ok (config, template2) => (some config, template2)
  | Except.error _ => (none, template)

/-- Structure denoted by the embedded `create-client` /
`create-client-workflow` YAML document (external `js-yaml` semantics
on that fixed document). -/
def embClientWorkflow : WorkflowDefinition :=
  { workflow := { steps := [("gleif_client",
      { id := "gleif_client", type := "create_client",
        agent_name := some "gleif-agent-1", aid := none,
        description := "Creating client for gleif agent" })] } }

/-- Structure denoted by the embedded `create-aid-workflow` YAML
document (external `js-yaml` semantics on that fixed document). -/
def embAidWorkflow : WorkflowDefinition :=
  { workflow := { steps := [("gleif_aid",
      { id := "gleif_aid", type := "create_aid",
        agent_name := none, aid := some "gleif-aid-1",
        description := "Creating AID for gleif-aid-1" })] } }

/-- A conforming YAML parser on the inputs this module feeds it: maps
each embedded document to its denotation and rejects everything else.
Used as a concrete environment instance; theorems that need parser
behaviour take it as an explicit hypothesis. -/
def embeddedYamlParse : String → Except String (Option WorkflowDefinition) := fun s =>
  if s = createClientYaml then Except.ok (some embClientWorkflow)
  else if s = createAidYaml then Except.ok (some embAidWorkflow)
  else Except.error "YAMLException"

/-- Workflow environment with the bundled-file and storage tiers
unavailable and a conforming YAML parser. -/
def offlineWorkflowEnv : WorkflowEnv :=
  { fetchW := Except.error "Failed to fetch workflow file: 404",
    parseYaml := embeddedYamlParse,
    storageGet := Except.error "storage unavailable" }

/-- Workflow environment whose bundled file fetches but is malformed
YAML; storage also unavailable. -/
def badYamlWorkflowEnv : WorkflowEnv :=
  { fetchW := Except.ok "not: [valid",
    parseYaml := embeddedYamlParse,
    storageGet := Except.error "storage unavailable" }

/-- Config environment with the bundled-file tier unavailable and a
default-template branch that runs normally. -/
def offlineConfigEnv : ConfigEnv :=
  { fetch := Except.error "Failed to fetch config file: 404",
    parseJson := fun _ => Except.error "SyntaxError: Unexpected token",
    fallbackError := none }

/-- Config environment whose bundled file fetches but is malformed
JSON (`JSON.parse` throws). -/
def badJsonConfigEnv : ConfigEnv :=
  { fetch := Except.ok "not json",
    parseJson := fun _ => Except.error "SyntaxError: Unexpected token",
    fallbackError := none }

/-- Config environment in which an exception is thrown while the
default-template branch itself is processed. -/
def crashingConfigEnv : ConfigEnv :=
  { fetch := Except.error "Failed to fetch config file: 404",
    parseJson := fun _ => Except.error "SyntaxError: Unexpected token",
    fallbackError := some "TypeError: cannot read properties" }

/-- First overlay of the template-mutation scenario. -/
def rvFirst : RuntimeValues :=
  { agentUrl := some "U1", bootUrl := some "B1",
    passcode := some "P1", bran := some "BR1" }

/-- Second overlay of the template-mutation scenario: no passcode and
no bran. -/
def rvSecond : RuntimeValues :=
  { agentUrl := some "U2", bootUrl := some "B2" }

theorem alget_alset_self {α : Type} (m : List (String × α)) (key : String) (v : α) :
    alget (alset m key v) key = some v := by
  induction m with
  | nil => simp [alget, alset]
  | cons entry rest ih =>
    by_cases h : entry.1 = key
    · simp [alget, alset, h]
    · simp [alget, alset, h, ih]

theorem alget_eq_none_of_ne {α : Type} (m : List (String × α)) (key : String)
    (h : alget m key = none) : ∀ p ∈ m, p.1 ≠ key := by
  induction m with
  | nil => intro p hp; cases hp
  | cons entry rest ih =>
    intro p hp
    by_cases he : entry.1 = key
    · simp [alget, he] at h
    · rcases List.mem_cons.mp hp with hp2 | hp2
      · subst hp2; exact he
      · exact ih (by simpa [alget, he] using h) p hp2

theorem getFallbackWorkflow_eq_none (workflowName : String)
    (h1 : workflowName ≠ "create-client-workflow")
    (h2 : workflowName ≠ "create-client")
    (h3 : workflowName ≠ "create-aid-workflow") :
    getFallbackWorkflow workflowName = none := by
  unfold getFallbackWorkflow
  split <;> simp_all

/-- C5: `loadWorkflow` never propagates an exception: whatever the
outcomes of the fetch tier, the embedded-table parse, and the storage
tier (thrown errors and parse errors included), it returns normally
with either a parsed workflow structure or `null`. -/
theorem c5_loadWorkflow_never_throws (env : WorkflowEnv) (workflowName : String) :
    ∃ v, loadWorkflow env workflowName = Except.ok v := by
  rcases h : loadWorkflowInner env workflowName with e | v
  · exact ⟨getFallbackWorkflow workflowName, by simp [loadWorkflow, h]⟩
  · exact ⟨v, by simp [loadWorkflow, h]⟩

/-- C1: the claim says `DEFAULT_CLIENT_CONFIG` is never mutated and two
sequential `loadConfig` calls cannot cross-contaminate.  The code
copies the template with a shallow spread, so the fallback branch of
the first call writes the overlay passcode into the shared `secrets`
and the overlay `bran` into the shared `agents.browser_extension`
entry; a second call whose overlay has neither field then returns a
config still carrying `P1` and `BR1`.  This theorem evaluates the two
calls at that failing input. -/
theorem c1_default_template_is_mutated :
    (((loadConfig (loadConfig DEFAULT_CLIENT_CONFIG offlineConfigEnv "user-config"
        (some rvFirst)).2 offlineConfigEnv "user-config" (some rvSecond)).1.bind
      fun c => alget c.secrets "browser_extension") = some "P1") ∧
    (((loadConfig (loadConfig DEFAULT_CLIENT_CONFIG offlineConfigEnv "user-config"
        (some rvFirst)).2 offlineConfigEnv "user-config" (some rvSecond)).1.bind
      fun c => (alget c.agents "browser_extension").bind fun a => a.bran) = some "BR1") := by
  decide

/-- C2: the claim says every identifier entry references a key of
`agents`, including the one inserted by the default-template branch
for an overlay `aidName`.  The code inserts
`identifiers[aidName] = { agent: "gleif-agent-1", ... }` there, but
the default template's `agents` record only has the key
`browser_extension`, so the inserted entry dangles.  This theorem
evaluates the default branch at that failing input. -/
theorem c2_default_branch_identifier_dangles :
    (((loadConfig DEFAULT_CLIENT_CONFIG offlineConfigEnv "user-config"
        (some { aidName := some "my-aid" })).1.bind
      fun c => alget c.identifiers "my-aid") =
        some { agent := "gleif-agent-1", name := "my-aid" }) ∧
    (((loadConfig DEFAULT_CLIENT_CONFIG offlineConfigEnv "user-config"
        (some { aidName := some "my-aid" })).1.bind
      fun c => alget c.agents "gleif-agent-1") = none) := by
  decide

/-- C3: with the bundled-file tier unavailable and overlay
`{agentUrl: U, bootUrl: B, passcode: P, bran: BR}` (both secrets
non-empty, hence truthy), `loadConfig` returns, for every config name,
a config whose default agent entry carries `url=U`, `boot_url=B`,
`passcode=P`, `bran=BR`, whose `secrets.browser_extension` is `P`, and
whose top level mirrors `agentUrl=U`, `bootUrl=B`, `bran=BR`. -/
theorem c3_fallback_overlay_fields (env : ConfigEnv) (fe configName U B P BR : String)
    (hfetch : env.fetch = Except.error fe) (hfb : env.fallbackError = none)
    (hP : P ≠ "") (hBR : BR ≠ "") :
    (loadConfig DEFAULT_CLIENT_CONFIG env configName
      (some { agentUrl := some U, bootUrl := some B, passcode := some P,
              bran := some BR, aidName := none })).1 =
      some { secrets := [("browser_extension", P)]
             agents := [("browser_extension",
               { secret := "browser_extension", url := some U, boot_url := some B,
                 passcode := some P, bran := some BR })]
             identifiers := [("browser-extension-aid",
               { agent := "browser_extension", name := "browser-extension-aid" })]
             users := [{ type := "EXTENSION", «alias» := "extension-user",
                         identifiers := ["browser-extension-aid"] }]
             credentials := []
             agentUrl := some U
             bootUrl := some B
             bran := some BR } := by
  have hp2 : jsTruthy (some P) = true := by simp [jsTruthy, hP]
  have hbr2 : jsTruthy (some BR) = true := by simp [jsTruthy, hBR]
  simp [loadConfig, loadConfigInner, fetchConfigTier, hfetch, hfb, fallbackBranch,
        hp2, hbr2, jsTruthy, DEFAULT_CLIENT_CONFIG, alget, alset]
  exact ⟨fun h => absurd h hP, hBR⟩

/-- Witness for C3 at a concrete offline environment and overlay. -/
theorem c3_fallback_overlay_fields_witness :
    (loadConfig DEFAULT_CLIENT_CONFIG offlineConfigEnv "user-config"
      (some { agentUrl := some "U", bootUrl := some "B", passcode := some "P",
              bran := some "BR", aidName := none })).1 =
      some { secrets := [("browser_extension", "P")]
             agents := [("browser_extension",
               { secret := "browser_extension", url := some "U", boot_url := some "B",
                 passcode := some "P", bran := some "BR" })]
             identifiers := [("browser-extension-aid",
               { agent := "browser_extension", name := "browser-extension-aid" })]
             users := [{ type := "EXTENSION", «alias» := "extension-user",
                         identifiers := ["browser-extension-aid"] }]
             credentials := []
             agentUrl := some "U"
             bootUrl := some "B"
             bran := some "BR" } :=
  c3_fallback_overlay_fields offlineConfigEnv "Failed to fetch config file: 404"
    "user-config" "U" "B" "P" "BR" rfl rfl (by decide) (by decide)

/-- C4: with the bundled-file tier unavailable and an overlay carrying
`agentUrl`, `bootUrl` and `passcode` but no `bran`, `loadConfig`
returns, for every config name, a config with no `bran` key at the top
level and none on the (sole) agent entry: the conditional spread never
introduces the key. -/
theorem c4_fallback_no_bran (env : ConfigEnv) (fe configName U B P : String)
    (aidName : Option String)
    (hfetch : env.fetch = Except.error fe) (hfb : env.fallbackError = none) :
    ∃ c, (loadConfig DEFAULT_CLIENT_CONFIG env configName
      (some { agentUrl := some U, bootUrl := some B, passcode := some P,
              bran := none, aidName := aidName })).1 = some c ∧
      c.bran = none ∧
      c.agents = [("browser_extension",
        { secret := "browser_extension", url := some U, boot_url := some B,
          passcode := some P, bran := none })] := by
  refine ⟨(fallbackBranch DEFAULT_CLIENT_CONFIG
    (some { agentUrl := some U, bootUrl := some B, passcode := some P,
            bran := none, aidName := aidName })).1, ?_, ?_, ?_⟩
  · simp [loadConfig, loadConfigInner, fetchConfigTier, hfetch, hfb]
  · simp [fallbackBranch, jsTruthy, DEFAULT_CLIENT_CONFIG]
  · simp [fallbackBranch, jsTruthy, DEFAULT_CLIENT_CONFIG, alget, alset]

/-- Witness for C4 at a concrete offline environment and overlay. -/
theorem c4_fallback_no_bran_witness :
    ∃ c, (loadConfig DEFAULT_CLIENT_CONFIG offlineConfigEnv "user-config"
      (some { agentUrl := some "U", bootUrl := some "B", passcode := some "P",
              bran := none, aidName := none })).1 = some c ∧
      c.bran = none ∧
      c.agents = [("browser_extension",
        { secret := "browser_extension", url := some "U", boot_url := some "B",
          passcode := some "P", bran := none })] :=
  c4_fallback_no_bran offlineConfigEnv "Failed to fetch config file: 404"
    "user-config" "U" "B" "P" none rfl rfl

/-- C7: if an error is thrown while the default-template branch itself
is processed (after the bundled-file tier failed), `loadConfig`
returns `null` — no fallback object, no exception. -/
theorem c7_loadConfig_fails_closed (template : ExtendedConfig) (env : ConfigEnv)
    (configName fe err : String) (runtimeValues : Option RuntimeValues)
    (hfetch : env.fetch = Except.error fe)
    (hthrow : env.fallbackError = some err) :
    (loadConfig template env configName runtimeValues).1 = none := by
  simp [loadConfig, loadConfigInner, fetchConfigTier, hfetch, hthrow]

/-- Witness for C7 at a concrete crashing environment. -/
theorem c7_loadConfig_fails_closed_witness :
    (loadConfig DEFAULT_CLIENT_CONFIG crashingConfigEnv "user-config" (some rvFirst)).1 =
      none :=
  c7_loadConfig_fails_closed DEFAULT_CLIENT_CONFIG crashingConfigEnv "user-config"
    "Failed to fetch config file: 404" "TypeError: cannot read properties"
    (some rvFirst) rfl rfl

/-- C8: a bundled resource that fetches but fails to parse takes
exactly the same path as a fetch failure: with everything else equal,
`loadWorkflow` under a successful fetch whose YAML parse throws equals
`loadWorkflow` under a failed fetch, and likewise `loadConfig` for a
JSON parse failure. -/
theorem c8_parse_failure_equals_fetch_failure (wenv : WorkflowEnv) (cenv : ConfigEnv)
    (template : ExtendedConfig) (runtimeValues : Option RuntimeValues)
    (workflowName configName wbody cbody wfe cfe pe pe2 : String)
    (hwf : wenv.fetchW = Except.ok wbody) (hwp : wenv.parseYaml wbody = Except.error pe)
    (hcf : cenv.fetch = Except.ok cbody) (hcp : cenv.parseJson cbody = Except.error pe2) :
    loadWorkflow wenv workflowName =
      loadWorkflow { wenv with fetchW := Except.error wfe } workflowName ∧
    loadConfig template cenv configName runtimeValues =
      loadConfig template { cenv with fetch := Except.error cfe } configName
        runtimeValues := by
  constructor
  · simp [loadWorkflow, loadWorkflowInner, fetchWorkflowTier, workflowStorageTier,
          hwf, hwp]
  · simp [loadConfig, loadConfigInner, fetchConfigTier, hcf, hcp]

/-- Witness for C8 at concrete malformed-resource environments. -/
theorem c8_parse_failure_equals_fetch_failure_witness :
    (loadWorkflow badYamlWorkflowEnv "create-client" =
      loadWorkflow { badYamlWorkflowEnv with fetchW := Except.error "network down" }
        "create-client") ∧
    (loadConfig DEFAULT_CLIENT_CONFIG badJsonConfigEnv "user-config" (some rvFirst) =
      loadConfig DEFAULT_CLIENT_CONFIG
        { badJsonConfigEnv with fetch := Except.error "network down" } "user-config"
        (some rvFirst)) :=
  c8_parse_failure_equals_fetch_failure badYamlWorkflowEnv badJsonConfigEnv
    DEFAULT_CLIENT_CONFIG (some rvFirst) "create-client" "user-config"
    "not: [valid" "not json" "network down" "network down"
    "YAMLException" "SyntaxError: Unexpected token"
    rfl (by decide) rfl rfl

/-- C10: an overlay whose `bran` is present but the empty string is
treated exactly as an overlay without `bran`: `loadConfig` returns the
very same result and template state, in the loaded-file branch and in
the default-template branch alike, because the code tests `bran` for
truthiness. -/
theorem c10_empty_bran_equals_absent (template : ExtendedConfig) (env : ConfigEnv)
    (configName : String) (agentUrl bootUrl passcode aidName : Option String) :
    loadConfig template env configName
      (some { agentUrl := agentUrl, bootUrl := bootUrl, passcode := passcode,
              bran := some "", aidName := aidName }) =
    loadConfig template env configName
      (some { agentUrl := agentUrl, bootUrl := bootUrl, passcode := passcode,
              bran := none, aidName := aidName }) := by
  have h0 : jsTruthy (some "") = false := by decide
  have h1 : jsTruthy none = false := by decide
  rcases h : fetchConfigTier env with e | cfg
  · rcases hfb : env.fallbackError with _ | err
    · simp [loadConfig, loadConfigInner, h, hfb, fallbackBranch, h0, h1]
    · simp [loadConfig, loadConfigInner, h, hfb]
  · simp [loadConfig, loadConfigInner, h, applyLoadedOverlay, h0, h1]

/-- C9: `generatePasscodeAndConfig` always returns a passcode of
exactly 20 characters, each drawn from the 64-character alphabet
`A-Z a-z 0-9 - _`, together with a config whose
`secrets.browser_extension` slot equals the returned passcode. -/
theorem c9_passcode_contract (template : ExtendedConfig) (rand : Nat → Fin 64) :
    (generatePasscodeAndConfig template rand).1.length = 20 ∧
    (∀ ch ∈ (generatePasscodeAndConfig template rand).1.toList, ch ∈ charactersList) ∧
    alget (generatePasscodeAndConfig template rand).2.1.secrets "browser_extension" =
      some (generatePasscodeAndConfig template rand).1 := by
  refine ⟨?_, ?_, ?_⟩
  · simp [generatePasscodeAndConfig, generateRandomPasscode, String.length]
  · intro ch hch
    simp [generatePasscodeAndConfig, generateRandomPasscode, String.toList] at hch
    obtain ⟨i, hi, rfl⟩ := hch
    exact List.get_mem _ _ _
  · simp only [generatePasscodeAndConfig]
    exact alget_alset_self _ _ _

theorem loadWorkflow_embedded_hit (env : WorkflowEnv) (fe name text : String)
    (v : Option WorkflowDefinition)
    (hfetch : env.fetchW = Except.error fe)
    (halget : alget EMBEDDED_WORKFLOWS name = some text)
    (htext : text ≠ "")
    (hp : env.parseYaml text = Except.ok v) :
    loadWorkflow env name = Except.ok v := by
  have htr : jsTruthy (some text) = true := by simp [jsTruthy, htext]
  simp [loadWorkflow, loadWorkflowInner, fetchWorkflowTier, hfetch, halget, htr, hp]

theorem loadWorkflow_fallback_tier (env : WorkflowEnv) (fe se name : String)
    (hfetch : env.fetchW = Except.error fe)
    (halget : alget EMBEDDED_WORKFLOWS name = none)
    (hstore : env.storageGet = Except.error se) :
    loadWorkflow env name = Except.ok (getFallbackWorkflow name) := by
  simp [loadWorkflow, loadWorkflowInner, fetchWorkflowTier, workflowStorageTier,
        hfetch, halget, hstore, jsTruthy]

/-- C6 counterexample: with the bundled-file and storage tiers
unavailable and a conforming YAML parser, `loadWorkflow` for
`create-client` does not return the `getFallbackWorkflow` structure
for that name — the embedded-table tier answers first with a structure
whose description lacks the " (FALLBACK)" suffix. -/
theorem c6_embedded_beats_fallback_counterexample :
    loadWorkflow offlineWorkflowEnv "create-client" ≠
      Except.ok (getFallbackWorkflow "create-client") := by
  decide

/-- C6 amended: with the bundled-file and storage tiers unavailable
and a conforming YAML parser, `loadWorkflow` returns, for each of the
three known names, the structure of the embedded table for that name —
which differs from the `getFallbackWorkflow` structure — and for every
name outside the embedded table it returns `null` rather than
failing. -/
theorem c6_fallback_names_amended (env : WorkflowEnv) (fe se workflowName : String)
    (hfetch : env.fetchW = Except.error fe)
    (hstore : env.storageGet = Except.error se)
    (hparse : ∀ s, env.parseYaml s = embeddedYamlParse s) :
    ((workflowName = "create-client" ∨ workflowName = "create-client-workflow") →
      loadWorkflow env workflowName = Except.ok (some embClientWorkflow) ∧
      some embClientWorkflow ≠ getFallbackWorkflow workflowName) ∧
    (workflowName = "create-aid-workflow" →
      loadWorkflow env workflowName = Except.ok (some embAidWorkflow) ∧
      some embAidWorkflow ≠ getFallbackWorkflow workflowName) ∧
    (alget EMBEDDED_WORKFLOWS workflowName = none →
      loadWorkflow env workflowName = Except.ok none) := by
  refine ⟨?_, ?_, ?_⟩
  · rintro (rfl | rfl)
    · exact ⟨loadWorkflow_embedded_hit env fe "create-client" createClientYaml
        (some embClientWorkflow) hfetch (by decide) (by decide)
        (by rw [hparse]; decide), by decide⟩
    · exact ⟨loadWorkflow_embedded_hit env fe "create-client-workflow" createClientYaml
        (some embClientWorkflow) hfetch (by decide) (by decide)
        (by rw [hparse]; decide), by decide⟩
  · rintro rfl
    exact ⟨loadWorkflow_embedded_hit env fe "create-aid-workflow" createAidYaml
      (some embAidWorkflow) hfetch (by decide) (by decide)
      (by rw [hparse]; decide), by decide⟩
  · intro halget
    have h1 : workflowName ≠ "create-client-workflow" := by
      intro h; subst h; revert halget; decide
    have h2 : workflowName ≠ "create-client" := by
      intro h; subst h; revert halget; decide
    have h3 : workflowName ≠ "create-aid-workflow" := by
      intro h; subst h; revert halget; decide
    rw [loadWorkflow_fallback_tier env fe se workflowName hfetch halget hstore,
        getFallbackWorkflow_eq_none workflowName h1 h2 h3]

/-- Witness for C6 amended, at the concrete offline environment and
the name `create-client`. -/
theorem c6_fallback_names_amended_witness :
    ((("create-client" : String) = "create-client" ∨
        ("create-client" : String) = "create-client-workflow") →
      loadWorkflow offlineWorkflowEnv "create-client" =
        Except.ok (some embClientWorkflow) ∧
      some embClientWorkflow ≠ getFallbackWorkflow "create-client") ∧
    (("create-client" : String) = "create-aid-workflow" →
      loadWorkflow offlineWorkflowEnv "create-client" =
        Except.ok (some embAidWorkflow) ∧
      some embAidWorkflow ≠ getFallbackWorkflow "create-client") ∧
    (alget EMBEDDED_WORKFLOWS "create-client" = none →
      loadWorkflow offlineWorkflowEnv "create-client" = Except.ok none) :=
  c6_fallback_names_amended offlineWorkflowEnv "Failed to fetch workflow file: 404"
    "storage unavailable" "create-client" rfl rfl (fun _ => rfl)
